import Mathlib

/-!
Verification of the approval and fallback-routing engine of the
medical-ai-hospital-dashboard repository (src/app.py), shallowly embedded
in Lean 4.

JSON collections are modelled as insertion-ordered association lists from
string identifiers to records, matching Python dict semantics (lookup of
the first occurrence of a key; assignment replaces in place when the key
is present and appends otherwise).  A file on disk is modelled by
`FileContent`: absent, present but malformed, or present with parsed data.
Python `KeyError` from a missing subscript and `json.JSONDecodeError`
from a malformed document are modelled with `Except`.
-/

namespace MedicalDashboard

abbrev DoctorId := String
abbrev PatientId := String

/-- A doctor record from doctors.json: name, department, and the optional
availability flag (`doc.get ("available", True)` defaults to available). -/
structure Doctor where
  name : String
  department : String
  available : Option Bool
  deriving Repr, DecidableEq

/-- A patient record from patients.json: the fields read by the engine. -/
structure Patient where
  name : String
  symptoms : String
  doctor_id : DoctorId
  deriving Repr, DecidableEq

/-- A dashboard case record from doctor_dashboard.json (the fields the
approval engine reads or writes; `approved_by` is absent until approval). -/
structure Case where
  patient_name : String
  doctor_id : DoctorId
  final_severity : String
  status : String
  approved_by : Option DoctorId
  symptoms : String
  deriving Repr, DecidableEq

/-- An appointment record as written by `approve_case`. -/
structure Appointment where
  patient_id : PatientId
  doctor_id : DoctorId
  date : String
  time : String
  status : String
  deriving Repr, DecidableEq

/-- A notification record as written by `approve_case`. -/
structure Notify where
  message : String
  severity : String
  approved_by : DoctorId
  time : String
  deriving Repr, DecidableEq

/-- Python dict subscript read `d[k]` / `k in d`: the value at the first
occurrence of key `k`, if any. -/
def dictLookup {α : Type} (l : List (String × α)) (k : String) : Option α :=
  (l.find? (fun p => p.1 == k)).map Prod.snd

/-- Python dict assignment `d[k] = v`: replace the value at the first
occurrence of `k` keeping its position, or append `(k, v)` at the end. -/
def dictInsert {α : Type} : List (String × α) → String → α → List (String × α)
  | [], k, v => [(k, v)]
  | p :: rest, k, v =>
    if p.1 == k then (k, v) :: rest else p :: dictInsert rest k v

/-- The observable state of one JSON file on disk. -/
inductive FileContent (α : Type) where
  | absent : FileContent α
  | malformed : FileContent α
  | valid (data : α) : FileContent α
  deriving Repr, DecidableEq

/-- `load_json(path, default=None)` from src/app.py lines 17-21: if the
file does not exist, return `default if default is not None else {}`;
otherwise `json.load` parses the file, raising on a malformed document
(there is no exception handler). -/
def load_json {α : Type} (content : FileContent (List (String × α)))
    (dflt : Option (List (String × α))) : Except Unit (List (String × α)) :=
  match content with
  | .absent => .ok (dflt.getD [])
  | .malformed => .error ()
  | .valid data => .ok data

/-- `doc.get ("available", True)` from src/app.py lines 38 and 45. -/
def isAvailable (d : Doctor) : Bool := d.available.getD true

/-- A Python `KeyError` from a missing dict subscript. -/
inductive PyError where
  | keyError : PyError
  deriving Repr, DecidableEq

/-- `get_approving_doctor(patient_id)` from src/app.py lines 30-51,
with the loaded patients and doctors collections passed explicitly.
`patients[patient_id]` and `doctors[assigned_doc]` raise `KeyError`
when the key is missing; otherwise: if the assigned doctor is available
return it, else scan the doctors in iteration order for another available
doctor of the same department, else return `None`. -/
def get_approving_doctor (patients : List (PatientId × Patient))
    (doctors : List (DoctorId × Doctor)) (patient_id : PatientId) :
    Except PyError (Option DoctorId) :=
  match dictLookup patients patient_id with
  | none => .error .keyError
  | some pat =>
    match dictLookup doctors pat.doctor_id with
    | none => .error .keyError
    | some adoc =>
      if isAvailable adoc then .ok (some pat.doctor_id)
      else
        match doctors.find? (fun p =>
            p.2.department == adoc.department && isAvailable p.2
              && p.1 != pat.doctor_id) with
        | some p => .ok (some p.1)
        | none => .ok none

/-- The Normal-severity message of src/app.py lines 77-80. -/
def normal_message (pname : String) : String :=
  "Dear " ++ pname ++ ", your test results are normal. " ++
    "You may continue your current routine. No special treatment required."

/-- The Mild-severity message of src/app.py lines 82-85. -/
def mild_message (pname : String) : String :=
  "Dear " ++ pname ++ ", your reports show mild abnormality. " ++
    "Please follow doctor advice and schedule a follow-up check."

/-- The urgent message of src/app.py lines 87-90 (the final else branch). -/
def severe_message (pname : String) : String :=
  "⚠ Dear " ++ pname ++ ", your reports need urgent medical attention. " ++
    "An immediate appointment has been scheduled."

/-- Result of one `approve_case` call: the success flag (st.success versus
st.error), the three collections as they stand on disk afterwards (a
collection equal to the input one was not rewritten with new content),
and the resolved approver. -/
structure ApproveResult where
  ok : Bool
  dashboard : List (PatientId × Case)
  appointments : List (PatientId × Appointment)
  notifications : List (PatientId × Notify)
  approver : Option DoctorId
  deriving Repr, DecidableEq

/-- `approve_case(patient_id)` from src/app.py lines 55-117, with the
loaded collections, today's date string and the current timestamp string
passed explicitly.  Missing patient or no available approver return with
`ok := false` and every collection unchanged (no save is performed before
those returns).  On success the case is marked Approved with the resolved
approver, the severity-tiered message is composed (any severity other
than Normal and Mild takes the Severe branch, which also writes the
appointment), the notification entry is overwritten, and the updated
collections are saved. -/
def approve_case (patients : List (PatientId × Patient))
    (doctors : List (DoctorId × Doctor))
    (dashboard : List (PatientId × Case))
    (appointments : List (PatientId × Appointment))
    (notifications : List (PatientId × Notify))
    (today now : String) (patient_id : PatientId) :
    Except PyError ApproveResult :=
  match dictLookup dashboard patient_id with
  | none => .ok ⟨false, dashboard, appointments, notifications, none⟩
  | some case0 =>
    let severity := case0.final_severity
    match get_approving_doctor patients doctors patient_id with
    | .error e => .error e
    | .ok none => .ok ⟨false, dashboard, appointments, notifications, none⟩
    | .ok (some approver) =>
      let case1 : Case :=
        { case0 with approved_by := some approver, status := "Approved" }
      let message :=
        if severity == "Normal" then normal_message case1.patient_name
        else if severity == "Mild" then mild_message case1.patient_name
        else severe_message case1.patient_name
      let appointments1 :=
        if severity == "Normal" then appointments
        else if severity == "Mild" then appointments
        else dictInsert appointments patient_id
          ⟨patient_id, approver, today, "10:00 AM", "Scheduled"⟩
      let notifications1 := dictInsert notifications patient_id
        ⟨message, severity, approver, now⟩
      let dashboard1 := dictInsert dashboard patient_id case1
      .ok ⟨true, dashboard1, appointments1, notifications1, some approver⟩

/-! ### Concrete sample collections (used by the witness theorems) -/

/-- Sample doctors collection: D1 unavailable, D2 available (same
department), D3 with no availability flag. -/
def doctorsW : List (DoctorId × Doctor) :=
  [("D1", ⟨"Dr. One", "Cardiology", some false⟩),
   ("D2", ⟨"Dr. Two", "Cardiology", some true⟩),
   ("D3", ⟨"Dr. Three", "Neurology", none⟩)]

/-- Sample patients collection. -/
def patientsW : List (PatientId × Patient) :=
  [("P1", ⟨"Alice", "chest pain", "D1"⟩),
   ("P2", ⟨"Bob", "headache", "D3"⟩),
   ("P3", ⟨"Carol", "fever", "D2"⟩)]

/-- Sample dashboard collection: a Severe, a Normal, and an out-of-enum
severity case. -/
def dashboardW : List (PatientId × Case) :=
  [("P1", ⟨"Alice", "D1", "Severe", "Pending Review", none, "chest pain"⟩),
   ("P2", ⟨"Bob", "D3", "Normal", "Pending Review", none, "headache"⟩),
   ("P3", ⟨"Carol", "D2", "Critical", "Pending Review", none, "fever"⟩)]

/-- The full result of approving the Severe case P1 on the sample
collections with empty appointment and notification collections. -/
def resultP1 : ApproveResult :=
  ⟨true,
   [("P1", ⟨"Alice", "D1", "Severe", "Approved", some "D2", "chest pain"⟩),
    ("P2", ⟨"Bob", "D3", "Normal", "Pending Review", none, "headache"⟩),
    ("P3", ⟨"Carol", "D2", "Critical", "Pending Review", none, "fever"⟩)],
   [("P1", ⟨"P1", "D2", "2026-10-12", "10:00 AM", "Scheduled"⟩)],
   [("P1", ⟨severe_message "Alice", "Severe", "D2", "T0"⟩)],
   some "D2"⟩

/-! ### Basic lemmas about the dict model -/

theorem dictLookup_insert_self {α : Type} (l : List (String × α))
    (k : String) (v : α) : dictLookup (dictInsert l k v) k = some v := by
  induction l with
  | nil => simp [dictInsert, dictLookup]
  | cons p rest ih =>
    by_cases h : p.1 = k
    · simp [dictInsert, dictLookup, h]
    · simp only [dictInsert, dictLookup] at ih ⊢
      simp [h, ih]

theorem mem_of_dictLookup {α : Type} {l : List (String × α)}
    {k : String} {v : α} (h : dictLookup l k = some v) : (k, v) ∈ l := by
  induction l with
  | nil => simp [dictLookup] at h
  | cons p rest ih =>
    by_cases hk : p.1 = k
    · simp [dictLookup, hk] at h
      subst hk h
      exact List.mem_cons_self _ _
    · simp only [dictLookup, List.find?] at h ih
      rw [show (p.1 == k) = false by simp [hk]] at h
      exact List.mem_cons_of_mem _ (ih h)

/-- If `get_approving_doctor` resolves a doctor, that doctor occurs in the
doctors collection with availability flag true (or absent). -/
theorem approver_isAvailable {patients : List (PatientId × Patient)}
    {doctors : List (DoctorId × Doctor)} {patient_id : PatientId}
    {d : DoctorId}
    (h : get_approving_doctor patients doctors patient_id = .ok (some d)) :
    ∃ doc, (d, doc) ∈ doctors ∧ isAvailable doc = true := by
  unfold get_approving_doctor at h
  split at h
  · exact absurd h (by simp)
  next pat hp =>
    split at h
    · exact absurd h (by simp)
    next adoc hd =>
      split at h
      next hav =>
        simp only [Except.ok.injEq, Option.some.injEq] at h
        subst h
        exact ⟨adoc, mem_of_dictLookup hd, hav⟩
      next hav =>
        split at h
        next q hf =>
          simp only [Except.ok.injEq, Option.some.injEq] at h
          subst h
          have hmem := List.mem_of_find?_eq_some hf
          have hpred := List.find?_some hf
          simp only [Bool.and_eq_true] at hpred
          exact ⟨q.2, by simpa using hmem, hpred.1.2⟩
        · exact absurd h (by simp)

/-- Characterization of `get_approving_doctor` when the assigned doctor is
available: it is returned directly. -/
theorem get_approving_doctor_of_available
    (patients : List (PatientId × Patient)) (doctors : List (DoctorId × Doctor))
    (patient_id : PatientId) (pat : Patient) (adoc : Doctor)
    (hp : dictLookup patients patient_id = some pat)
    (hd : dictLookup doctors pat.doctor_id = some adoc)
    (hav : isAvailable adoc = true) :
    get_approving_doctor patients doctors patient_id =
      .ok (some pat.doctor_id) := by
  simp [get_approving_doctor, hp, hd, hav]

/-- Characterization of `get_approving_doctor` when the assigned doctor is
unavailable: the result is the department-restricted fallback scan. -/
theorem get_approving_doctor_of_unavailable
    (patients : List (PatientId × Patient)) (doctors : List (DoctorId × Doctor))
    (patient_id : PatientId) (pat : Patient) (adoc : Doctor)
    (hp : dictLookup patients patient_id = some pat)
    (hd : dictLookup doctors pat.doctor_id = some adoc)
    (hav : isAvailable adoc = false) :
    get_approving_doctor patients doctors patient_id =
      match doctors.find? (fun p =>
          p.2.department == adoc.department && isAvailable p.2
            && p.1 != pat.doctor_id) with
      | some p => Except.ok (some p.1)
      | none => Except.ok none := by
  simp [get_approving_doctor, hp, hd, hav]

/-- Characterization of a successful `approve_case` run: the exact result
record with all three updated collections. -/
theorem approve_case_success
    (patients : List (PatientId × Patient)) (doctors : List (DoctorId × Doctor))
    (dashboard : List (PatientId × Case))
    (appointments : List (PatientId × Appointment))
    (notifications : List (PatientId × Notify))
    (today now : String) (patient_id : PatientId)
    (case0 : Case) (approver : DoctorId)
    (hc : dictLookup dashboard patient_id = some case0)
    (ha : get_approving_doctor patients doctors patient_id = .ok (some approver)) :
    approve_case patients doctors dashboard appointments notifications
        today now patient_id =
      .ok ⟨true,
        dictInsert dashboard patient_id
          { case0 with approved_by := some approver, status := "Approved" },
        (if case0.final_severity == "Normal" then appointments
         else if case0.final_severity == "Mild" then appointments
         else dictInsert appointments patient_id
           ⟨patient_id, approver, today, "10:00 AM", "Scheduled"⟩),
        dictInsert notifications patient_id
          ⟨(if case0.final_severity == "Normal" then
              normal_message case0.patient_name
            else if case0.final_severity == "Mild" then
              mild_message case0.patient_name
            else severe_message case0.patient_name),
            case0.final_severity, approver, now⟩,
        some approver⟩ := by
  simp [approve_case, hc, ha]

/-! ### Claims -/

/-- C2 counterexample: the claim that `load` returns an empty mapping when
the underlying resource is unreadable/malformed, never raising an error,
is false for `load_json`: a present but malformed document makes the parse
raise, and nothing in app.py catches it. -/
theorem C2_counterexample :
    load_json (FileContent.malformed : FileContent (List (String × Nat)))
        (some []) = Except.error () ∧
    load_json (FileContent.malformed : FileContent (List (String × Nat)))
        (some []) ≠ Except.ok [] :=
  ⟨rfl, by simp [load_json]⟩

/-- C2 (amended): `load_json` returns the given default mapping (the empty
mapping when the default is absent) when the file does not exist; when the
file exists, a malformed document raises an uncaught error to the caller,
and a well-formed document returns its parsed data. -/
theorem C2_load_json_amended {α : Type} (dflt : Option (List (String × α)))
    (data : List (String × α)) :
    load_json FileContent.absent dflt = Except.ok (dflt.getD []) ∧
    load_json (FileContent.malformed : FileContent (List (String × α)))
      dflt = Except.error () ∧
    load_json (FileContent.valid data) dflt = Except.ok data :=
  ⟨rfl, rfl, rfl⟩

/-- C7: for every patient whose assigned doctor has availability flag true,
or no availability flag at all (defaulting to available),
`get_approving_doctor` returns the assigned doctor's id unchanged. -/
theorem C7_available_assigned_doctor_returned
    (patients : List (PatientId × Patient))
    (doctors : List (DoctorId × Doctor))
    (patient_id : PatientId) (pat : Patient) (adoc : Doctor)
    (hp : dictLookup patients patient_id = some pat)
    (hd : dictLookup doctors pat.doctor_id = some adoc)
    (hav : adoc.available = some true ∨ adoc.available = none) :
    get_approving_doctor patients doctors patient_id =
      .ok (some pat.doctor_id) := by
  apply get_approving_doctor_of_available patients doctors patient_id
    pat adoc hp hd
  rcases hav with h | h <;> simp [isAvailable, h]

/-- Witness for C7 at patient P2, whose assigned doctor D3 carries no
availability flag. -/
theorem C7_witness :
    dictLookup patientsW "P2" = some ⟨"Bob", "headache", "D3"⟩ ∧
    dictLookup doctorsW "D3" = some ⟨"Dr. Three", "Neurology", none⟩ ∧
    get_approving_doctor patientsW doctorsW "P2" = .ok (some "D3") :=
  ⟨rfl, rfl,
    C7_available_assigned_doctor_returned patientsW doctorsW "P2"
      ⟨"Bob", "headache", "D3"⟩ ⟨"Dr. Three", "Neurology", none⟩
      rfl rfl (Or.inr rfl)⟩

/-- C1: for every patient whose assigned doctor has availability flag
false, `get_approving_doctor` returns some doctor distinct from the
assigned one, occurring in the doctors collection with the same department
and an availability flag that is true or absent; it returns none only when
no such doctor exists; it never returns the assigned unavailable
doctor. -/
theorem C1_fallback_routing
    (patients : List (PatientId × Patient))
    (doctors : List (DoctorId × Doctor))
    (patient_id : PatientId) (pat : Patient) (adoc : Doctor)
    (hp : dictLookup patients patient_id = some pat)
    (hd : dictLookup doctors pat.doctor_id = some adoc)
    (hun : adoc.available = some false) :
    ∃ r, get_approving_doctor patients doctors patient_id = .ok r ∧
      (∀ d, r = some d → d ≠ pat.doctor_id ∧
        ∃ doc, (d, doc) ∈ doctors ∧ doc.department = adoc.department ∧
          isAvailable doc = true) ∧
      (r = none → ∀ d doc, (d, doc) ∈ doctors →
        doc.department = adoc.department → d ≠ pat.doctor_id →
        isAvailable doc = false) := by
  have hav : isAvailable adoc = false := by simp [isAvailable, hun]
  have hmain := get_approving_doctor_of_unavailable patients doctors
    patient_id pat adoc hp hd hav
  cases hf : doctors.find? (fun p =>
      p.2.department == adoc.department && isAvailable p.2
        && p.1 != pat.doctor_id) with
  | none =>
    rw [hf] at hmain
    refine ⟨none, hmain, by simp, ?_⟩
    intro _ d doc hmem hdept hne
    have hnp := List.find?_eq_none.mp hf (d, doc) hmem
    simp only [Bool.and_eq_true, beq_iff_eq, bne_iff_ne, not_and] at hnp
    by_contra hcon
    exact hnp ⟨hdept, by simpa using hcon⟩ hne
  | some q =>
    rw [hf] at hmain
    have hpred := List.find?_some hf
    have hmem := List.mem_of_find?_eq_some hf
    simp only [Bool.and_eq_true, beq_iff_eq, bne_iff_ne] at hpred
    obtain ⟨⟨hdept, hav2⟩, hne⟩ := hpred
    refine ⟨some q.1, hmain, ?_, by simp⟩
    rintro d hdq
    injection hdq with hdq
    subst hdq
    exact ⟨hne, ⟨q.2, by simpa using hmem, hdept, hav2⟩⟩

/-- Witness for C1 at patient P1: assigned doctor D1 is unavailable, and
the fallback resolves some same-department available doctor. -/
theorem C1_witness :
    dictLookup patientsW "P1" = some ⟨"Alice", "chest pain", "D1"⟩ ∧
    dictLookup doctorsW "D1" = some ⟨"Dr. One", "Cardiology", some false⟩ ∧
    (⟨"Dr. One", "Cardiology", some false⟩ : Doctor).available = some false ∧
    (∃ r, get_approving_doctor patientsW doctorsW "P1" = .ok r ∧
      (∀ d, r = some d → d ≠ "D1" ∧
        ∃ doc, (d, doc) ∈ doctorsW ∧ doc.department = "Cardiology" ∧
          isAvailable doc = true) ∧
      (r = none → ∀ d doc, (d, doc) ∈ doctorsW →
        doc.department = "Cardiology" → d ≠ "D1" →
        isAvailable doc = false)) :=
  ⟨rfl, rfl, rfl,
    C1_fallback_routing patientsW doctorsW "P1"
      ⟨"Alice", "chest pain", "D1"⟩ ⟨"Dr. One", "Cardiology", some false⟩
      rfl rfl rfl⟩

/-- C3: when the patient id is absent from the dashboard collection, or
the approver resolution yields no doctor, `approve_case` reports failure
(`ok := false`, corresponding to st.error) and returns every collection
exactly as loaded — the function returns before any save call runs. -/
theorem C3_failure_is_noop
    (patients : List (PatientId × Patient))
    (doctors : List (DoctorId × Doctor))
    (dashboard : List (PatientId × Case))
    (appointments : List (PatientId × Appointment))
    (notifications : List (PatientId × Notify))
    (today now : String) (patient_id : PatientId)
    (h : dictLookup dashboard patient_id = none ∨
        get_approving_doctor patients doctors patient_id = .ok none) :
    approve_case patients doctors dashboard appointments notifications
        today now patient_id =
      .ok ⟨false, dashboard, appointments, notifications, none⟩ := by
  rcases h with h | h
  · simp [approve_case, h]
  · cases hc : dictLookup dashboard patient_id with
    | none => simp [approve_case, hc]
    | some c0 => simp [approve_case, hc, h]

/-- Witness for C3 at an id absent from the dashboard collection. -/
theorem C3_witness :
    dictLookup dashboardW "P9" = none ∧
    approve_case patientsW doctorsW dashboardW [] [] "2026-10-12" "T0" "P9" =
      .ok ⟨false, dashboardW, [], [], none⟩ :=
  ⟨rfl,
    C3_failure_is_noop patientsW doctorsW dashboardW [] [] "2026-10-12"
      "T0" "P9" (Or.inl rfl)⟩

/-- C4: on a successful `approve_case`, a case whose final severity is
Severe gets exactly one appointment entry created or overwritten for the
patient — resolved approver as doctor, today's date, the fixed slot
10:00 AM, status Scheduled — while a Normal or Mild case leaves the
appointments collection unchanged. -/
theorem C4_severe_creates_appointment
    (patients : List (PatientId × Patient))
    (doctors : List (DoctorId × Doctor))
    (dashboard : List (PatientId × Case))
    (appointments : List (PatientId × Appointment))
    (notifications : List (PatientId × Notify))
    (today now : String) (patient_id : PatientId)
    (case0 : Case) (approver : DoctorId)
    (hc : dictLookup dashboard patient_id = some case0)
    (ha : get_approving_doctor patients doctors patient_id =
        .ok (some approver)) :
    ∃ r, approve_case patients doctors dashboard appointments notifications
        today now patient_id = .ok r ∧ r.ok = true ∧
      (case0.final_severity = "Severe" →
        r.appointments = dictInsert appointments patient_id
          ⟨patient_id, approver, today, "10:00 AM", "Scheduled"⟩ ∧
        dictLookup r.appointments patient_id =
          some ⟨patient_id, approver, today, "10:00 AM", "Scheduled"⟩) ∧
      ((case0.final_severity = "Normal" ∨ case0.final_severity = "Mild") →
        r.appointments = appointments) := by
  refine ⟨_, approve_case_success patients doctors dashboard appointments
    notifications today now patient_id case0 approver hc ha, rfl, ?_, ?_⟩
  · intro hs
    have e1 : (case0.final_severity == "Normal") = false := by rw [hs]; rfl
    have e2 : (case0.final_severity == "Mild") = false := by rw [hs]; rfl
    refine ⟨by simp [e1, e2], ?_⟩
    simp only [e1, e2, Bool.false_eq_true, if_false]
    exact dictLookup_insert_self _ _ _
  · rintro (hs | hs)
    · have e1 : (case0.final_severity == "Normal") = true := by rw [hs]; rfl
      simp [e1]
    · have e1 : (case0.final_severity == "Normal") = false := by rw [hs]; rfl
      have e2 : (case0.final_severity == "Mild") = true := by rw [hs]; rfl
      simp [e1, e2]

/-- Witness for C4 at patient P1, a Severe case whose approver resolves to
doctor D2. -/
theorem C4_witness :
    dictLookup dashboardW "P1" =
      some ⟨"Alice", "D1", "Severe", "Pending Review", none, "chest pain"⟩ ∧
    get_approving_doctor patientsW doctorsW "P1" = .ok (some "D2") ∧
    (⟨"Alice", "D1", "Severe", "Pending Review", none,
      "chest pain"⟩ : Case).final_severity = "Severe" ∧
    (∃ r, approve_case patientsW doctorsW dashboardW [] [] "2026-10-12"
        "T0" "P1" = .ok r ∧ r.ok = true ∧
      ("Severe" = "Severe" →
        r.appointments = dictInsert [] "P1"
          ⟨"P1", "D2", "2026-10-12", "10:00 AM", "Scheduled"⟩ ∧
        dictLookup r.appointments "P1" =
          some ⟨"P1", "D2", "2026-10-12", "10:00 AM", "Scheduled"⟩) ∧
      (("Severe" = "Normal" ∨ "Severe" = "Mild") →
        r.appointments = [])) :=
  ⟨rfl, rfl, rfl,
    C4_severe_creates_appointment patientsW doctorsW dashboardW [] []
      "2026-10-12" "T0" "P1"
      ⟨"Alice", "D1", "Severe", "Pending Review", none, "chest pain"⟩
      "D2" rfl rfl⟩

/-- C5: every successful `approve_case` overwrites the notification entry
for the patient with the severity-tiered message, the case's severity, the
approving doctor, and the current timestamp; the Severe-branch message is
used for any severity other than Normal and Mild. -/
theorem C5_notification_overwritten
    (patients : List (PatientId × Patient))
    (doctors : List (DoctorId × Doctor))
    (dashboard : List (PatientId × Case))
    (appointments : List (PatientId × Appointment))
    (notifications : List (PatientId × Notify))
    (today now : String) (patient_id : PatientId)
    (case0 : Case) (approver : DoctorId)
    (hc : dictLookup dashboard patient_id = some case0)
    (ha : get_approving_doctor patients doctors patient_id =
        .ok (some approver)) :
    ∃ r m, approve_case patients doctors dashboard appointments
        notifications today now patient_id = .ok r ∧ r.ok = true ∧
      r.notifications = dictInsert notifications patient_id
        ⟨m, case0.final_severity, approver, now⟩ ∧
      dictLookup r.notifications patient_id =
        some ⟨m, case0.final_severity, approver, now⟩ ∧
      (case0.final_severity = "Normal" →
        m = normal_message case0.patient_name) ∧
      (case0.final_severity = "Mild" →
        m = mild_message case0.patient_name) ∧
      (case0.final_severity ≠ "Normal" → case0.final_severity ≠ "Mild" →
        m = severe_message case0.patient_name) := by
  refine ⟨_, _, approve_case_success patients doctors dashboard appointments
    notifications today now patient_id case0 approver hc ha, rfl, rfl,
    dictLookup_insert_self _ _ _, ?_, ?_, ?_⟩
  · intro hs
    have e1 : (case0.final_severity == "Normal") = true := by rw [hs]; rfl
    simp [e1]
  · intro hs
    have e1 : (case0.final_severity == "Normal") = false := by rw [hs]; rfl
    have e2 : (case0.final_severity == "Mild") = true := by rw [hs]; rfl
    simp [e1, e2]
  · intro hn hm
    simp [beq_eq_false_iff_ne.mpr hn, beq_eq_false_iff_ne.mpr hm]

/-- Witness for C5 at patient P2, a Normal case approved by its own
available doctor D3. -/
theorem C5_witness :
    dictLookup dashboardW "P2" =
      some ⟨"Bob", "D3", "Normal", "Pending Review", none, "headache"⟩ ∧
    get_approving_doctor patientsW doctorsW "P2" = .ok (some "D3") ∧
    (∃ r m, approve_case patientsW doctorsW dashboardW [] [] "2026-10-12"
        "T0" "P2" = .ok r ∧ r.ok = true ∧
      r.notifications = dictInsert [] "P2" ⟨m, "Normal", "D3", "T0"⟩ ∧
      dictLookup r.notifications "P2" = some ⟨m, "Normal", "D3", "T0"⟩ ∧
      ("Normal" = "Normal" → m = normal_message "Bob") ∧
      ("Normal" = "Mild" → m = mild_message "Bob") ∧
      (("Normal" : String) ≠ "Normal" → ("Normal" : String) ≠ "Mild" →
        m = severe_message "Bob")) :=
  ⟨rfl, rfl,
    C5_notification_overwritten patientsW doctorsW dashboardW [] []
      "2026-10-12" "T0" "P2"
      ⟨"Bob", "D3", "Normal", "Pending Review", none, "headache"⟩
      "D3" rfl rfl⟩

/-- C6: every successful `approve_case` stores, in the persisted dashboard
collection, the case with status set to Approved and approved_by set to
the resolved doctor, leaving all other entries in place. -/
theorem C6_case_marked_approved
    (patients : List (PatientId × Patient))
    (doctors : List (DoctorId × Doctor))
    (dashboard : List (PatientId × Case))
    (appointments : List (PatientId × Appointment))
    (notifications : List (PatientId × Notify))
    (today now : String) (patient_id : PatientId)
    (case0 : Case) (approver : DoctorId)
    (hc : dictLookup dashboard patient_id = some case0)
    (ha : get_approving_doctor patients doctors patient_id =
        .ok (some approver)) :
    ∃ r, approve_case patients doctors dashboard appointments notifications
        today now patient_id = .ok r ∧ r.ok = true ∧
      r.approver = some approver ∧
      r.dashboard = dictInsert dashboard patient_id
        { case0 with status := "Approved", approved_by := some approver } ∧
      dictLookup r.dashboard patient_id =
        some { case0 with
               status := "Approved",
               approved_by := some approver } :=
  ⟨_, approve_case_success patients doctors dashboard appointments
    notifications today now patient_id case0 approver hc ha, rfl, rfl, rfl,
    dictLookup_insert_self _ _ _⟩

/-- Witness for C6 at patient P2. -/
theorem C6_witness :
    dictLookup dashboardW "P2" =
      some ⟨"Bob", "D3", "Normal", "Pending Review", none, "headache"⟩ ∧
    get_approving_doctor patientsW doctorsW "P2" = .ok (some "D3") ∧
    (∃ r, approve_case patientsW doctorsW dashboardW [] [] "2026-10-12"
        "T0" "P2" = .ok r ∧ r.ok = true ∧
      r.approver = some "D3" ∧
      r.dashboard = dictInsert dashboardW "P2"
        ⟨"Bob", "D3", "Normal", "Approved", some "D3", "headache"⟩ ∧
      dictLookup r.dashboard "P2" =
        some ⟨"Bob", "D3", "Normal", "Approved", some "D3", "headache"⟩) := by
  exact ⟨rfl, rfl,
    C6_case_marked_approved patientsW doctorsW dashboardW [] []
      "2026-10-12" "T0" "P2"
      ⟨"Bob", "D3", "Normal", "Pending Review", none, "headache"⟩
      "D3" rfl rfl⟩

/-- C8: whenever a completed `approve_case` run has set a case's
approved_by field, the referenced doctor occurs in the doctors collection
with availability flag true or absent (defaulting to available):
approved_by is never set to an unavailable doctor. -/
theorem C8_approved_by_was_available
    (patients : List (PatientId × Patient))
    (doctors : List (DoctorId × Doctor))
    (dashboard : List (PatientId × Case))
    (appointments : List (PatientId × Appointment))
    (notifications : List (PatientId × Notify))
    (today now : String) (patient_id : PatientId)
    (r : ApproveResult) (c : Case) (d : DoctorId)
    (hr : approve_case patients doctors dashboard appointments notifications
        today now patient_id = .ok r)
    (hok : r.ok = true)
    (hcd : dictLookup r.dashboard patient_id = some c)
    (hab : c.approved_by = some d) :
    ∃ doc, (d, doc) ∈ doctors ∧ isAvailable doc = true := by
  cases hc0 : dictLookup dashboard patient_id with
  | none =>
    simp only [approve_case, hc0] at hr
    injection hr with hr
    subst hr
    exact absurd hok (by simp)
  | some case0 =>
    cases ha0 : get_approving_doctor patients doctors patient_id with
    | error e => simp [approve_case, hc0, ha0] at hr
    | ok oapp =>
      cases oapp with
      | none =>
        simp only [approve_case, hc0, ha0] at hr
        injection hr with hr
        subst hr
        exact absurd hok (by simp)
      | some approver =>
        have hEq := approve_case_success patients doctors dashboard
          appointments notifications today now patient_id case0 approver
          hc0 ha0
        rw [hr] at hEq
        injection hEq with hEq
        subst hEq
        have hcd2 : dictLookup (dictInsert dashboard patient_id
            { case0 with approved_by := some approver,
                         status := "Approved" }) patient_id = some c := hcd
        rw [dictLookup_insert_self] at hcd2
        injection hcd2 with hcd2
        subst hcd2
        have hab2 : some approver = some d := hab
        injection hab2 with hab2
        subst hab2
        exact approver_isAvailable ha0

/-- Witness for C8 at patient P1: the stored approver D2 occurs among the
doctors with availability flag true. -/
theorem C8_witness :
    approve_case patientsW doctorsW dashboardW [] [] "2026-10-12" "T0"
      "P1" = .ok resultP1 ∧
    resultP1.ok = true ∧
    dictLookup resultP1.dashboard "P1" =
      some ⟨"Alice", "D1", "Severe", "Approved", some "D2", "chest pain"⟩ ∧
    (⟨"Alice", "D1", "Severe", "Approved", some "D2",
      "chest pain"⟩ : Case).approved_by = some "D2" ∧
    ∃ doc, ("D2", doc) ∈ doctorsW ∧ isAvailable doc = true := by
  exact ⟨rfl, rfl, rfl, rfl,
    C8_approved_by_was_available patientsW doctorsW dashboardW [] []
      "2026-10-12" "T0" "P1" resultP1
      ⟨"Alice", "D1", "Severe", "Approved", some "D2", "chest pain"⟩
      "D2" rfl rfl rfl rfl⟩

/-- C9: approving the same patient twice in sequence (preconditions
holding both times) succeeds both times with status Approved after each
call; the engine has no re-approval guard, so the second call re-runs the
full flow, overwriting the notification entry with the new timestamp and,
for a Severe case, overwriting the appointment entry with the new date. -/
theorem C9_double_approval
    (patients : List (PatientId × Patient))
    (doctors : List (DoctorId × Doctor))
    (dashboard : List (PatientId × Case))
    (appointments : List (PatientId × Appointment))
    (notifications : List (PatientId × Notify))
    (today1 now1 today2 now2 : String) (patient_id : PatientId)
    (case0 : Case) (approver : DoctorId)
    (hc : dictLookup dashboard patient_id = some case0)
    (ha : get_approving_doctor patients doctors patient_id =
        .ok (some approver)) :
    ∃ r1 r2,
      approve_case patients doctors dashboard appointments notifications
        today1 now1 patient_id = .ok r1 ∧ r1.ok = true ∧
      (dictLookup r1.dashboard patient_id).map Case.status =
        some "Approved" ∧
      approve_case patients doctors r1.dashboard r1.appointments
        r1.notifications today2 now2 patient_id = .ok r2 ∧ r2.ok = true ∧
      (dictLookup r2.dashboard patient_id).map Case.status =
        some "Approved" ∧
      (∃ m, r2.notifications = dictInsert r1.notifications patient_id
        ⟨m, case0.final_severity, approver, now2⟩) ∧
      (case0.final_severity = "Severe" →
        r2.appointments = dictInsert r1.appointments patient_id
          ⟨patient_id, approver, today2, "10:00 AM", "Scheduled"⟩) := by
  have h1 := approve_case_success patients doctors dashboard appointments
    notifications today1 now1 patient_id case0 approver hc ha
  have h2 := approve_case_success patients doctors
      (dictInsert dashboard patient_id
        { case0 with approved_by := some approver, status := "Approved" })
      (if case0.final_severity == "Normal" then appointments
       else if case0.final_severity == "Mild" then appointments
       else dictInsert appointments patient_id
         ⟨patient_id, approver, today1, "10:00 AM", "Scheduled"⟩)
      (dictInsert notifications patient_id
        ⟨(if case0.final_severity == "Normal" then
            normal_message case0.patient_name
          else if case0.final_severity == "Mild" then
            mild_message case0.patient_name
          else severe_message case0.patient_name),
          case0.final_severity, approver, now1⟩)
      today2 now2 patient_id
      { case0 with approved_by := some approver, status := "Approved" }
      approver (dictLookup_insert_self _ _ _) ha
  refine ⟨_, _, h1, rfl, ?_, h2, rfl, ?_, ?_, ?_⟩
  · simp [dictLookup_insert_self]
  · simp [dictLookup_insert_self]
  · exact ⟨_, rfl⟩
  · intro hs
    have e1 : (case0.final_severity == "Normal") = false := by rw [hs]; rfl
    have e2 : (case0.final_severity == "Mild") = false := by rw [hs]; rfl
    simp [e1, e2]

/-- Witness for C9 at the Severe patient P1 approved on two consecutive
days. -/
theorem C9_witness :
    dictLookup dashboardW "P1" =
      some ⟨"Alice", "D1", "Severe", "Pending Review", none, "chest pain"⟩ ∧
    get_approving_doctor patientsW doctorsW "P1" = .ok (some "D2") ∧
    (∃ r1 r2,
      approve_case patientsW doctorsW dashboardW [] [] "2026-10-12" "T0"
        "P1" = .ok r1 ∧ r1.ok = true ∧
      (dictLookup r1.dashboard "P1").map Case.status = some "Approved" ∧
      approve_case patientsW doctorsW r1.dashboard r1.appointments
        r1.notifications "2026-10-13" "T1" "P1" = .ok r2 ∧ r2.ok = true ∧
      (dictLookup r2.dashboard "P1").map Case.status = some "Approved" ∧
      (∃ m, r2.notifications = dictInsert r1.notifications "P1"
        ⟨m, "Severe", "D2", "T1"⟩) ∧
      (("Severe" : String) = "Severe" →
        r2.appointments = dictInsert r1.appointments "P1"
          ⟨"P1", "D2", "2026-10-13", "10:00 AM", "Scheduled"⟩)) := by
  exact ⟨rfl, rfl,
    C9_double_approval patientsW doctorsW dashboardW [] []
      "2026-10-12" "T0" "2026-10-13" "T1" "P1"
      ⟨"Alice", "D1", "Severe", "Pending Review", none, "chest pain"⟩
      "D2" rfl rfl⟩

/-- C10: any final severity other than the exact strings Normal and Mild
— including out-of-enum values — takes the Severe branch of a successful
`approve_case`: the urgent message is composed and the appointment entry
is created or overwritten for the patient. -/
theorem C10_unknown_severity_treated_as_severe
    (patients : List (PatientId × Patient))
    (doctors : List (DoctorId × Doctor))
    (dashboard : List (PatientId × Case))
    (appointments : List (PatientId × Appointment))
    (notifications : List (PatientId × Notify))
    (today now : String) (patient_id : PatientId)
    (case0 : Case) (approver : DoctorId)
    (hc : dictLookup dashboard patient_id = some case0)
    (ha : get_approving_doctor patients doctors patient_id =
        .ok (some approver))
    (hn : case0.final_severity ≠ "Normal")
    (hm : case0.final_severity ≠ "Mild") :
    ∃ r, approve_case patients doctors dashboard appointments notifications
        today now patient_id = .ok r ∧ r.ok = true ∧
      r.appointments = dictInsert appointments patient_id
        ⟨patient_id, approver, today, "10:00 AM", "Scheduled"⟩ ∧
      r.notifications = dictInsert notifications patient_id
        ⟨severe_message case0.patient_name, case0.final_severity,
          approver, now⟩ := by
  refine ⟨_, approve_case_success patients doctors dashboard appointments
    notifications today now patient_id case0 approver hc ha, rfl, ?_, ?_⟩
  · simp [beq_eq_false_iff_ne.mpr hn, beq_eq_false_iff_ne.mpr hm]
  · simp [beq_eq_false_iff_ne.mpr hn, beq_eq_false_iff_ne.mpr hm]

/-- Witness for C10 at patient P3, whose final severity is the
out-of-enum string Critical. -/
theorem C10_witness :
    dictLookup dashboardW "P3" =
      some ⟨"Carol", "D2", "Critical", "Pending Review", none, "fever"⟩ ∧
    get_approving_doctor patientsW doctorsW "P3" = .ok (some "D2") ∧
    ("Critical" : String) ≠ "Normal" ∧ ("Critical" : String) ≠ "Mild" ∧
    (∃ r, approve_case patientsW doctorsW dashboardW [] [] "2026-10-12"
        "T0" "P3" = .ok r ∧ r.ok = true ∧
      r.appointments = dictInsert [] "P3"
        ⟨"P3", "D2", "2026-10-12", "10:00 AM", "Scheduled"⟩ ∧
      r.notifications = dictInsert [] "P3"
        ⟨severe_message "Carol", "Critical", "D2", "T0"⟩) := by
  exact ⟨rfl, rfl, by decide, by decide,
    C10_unknown_severity_treated_as_severe patientsW doctorsW dashboardW
      [] [] "2026-10-12" "T0" "P3"
      ⟨"Carol", "D2", "Critical", "Pending Review", none, "fever"⟩
      "D2" rfl rfl (by decide) (by decide)⟩

end MedicalDashboard
